import Mathlib

/-!
Shallow embedding of the shuaiming/openid relying-party core
(src/openid.go and src/login/id.go) together with the pieces of the
repository that src/ only declares or calls: the wire codec, the
association store, and the signing primitive, each modelled from the
spec where the source file is absent. Byte strings are lists of Nat
(each < 256 for genuine byte data), machine integers are Int with
explicit wrapping where Go's int64 overflows, and time is an Int count
of nanoseconds, matching Go's time.Time/time.Duration granularity.
-/

namespace OpenIDRP

/-- A byte string: Go `string` / `[]byte`, one Nat per byte. -/
abbrev Str := List Nat

/-- Bytes of an ASCII Lean string literal (all source literals are ASCII). -/
def str (s : String) : Str := s.toList.map Char.toNat

/-- Association lists standing for Go `map[string]string`. -/
abbrev Dict := List (Str × Str)

/-- Lookup in a `Dict`: first binding wins (keys are unique in Go maps). -/
def dget (d : Dict) (k : Str) : Option Str :=
  (d.find? (fun p => p.1 == k)).map (fun p => p.2)

/-- Go's indexing `m[k]`, which yields the zero value `""` for a missing key. -/
def dgetD (d : Dict) (k : Str) : Str := (dget d k).getD []

/- ## 32-bit words for SHA-256 (Go crypto/sha256), as Nat mod 2^32 -/

/-- Truncation to a 32-bit word. -/
def m32 (x : Nat) : Nat := x % 4294967296

/-- Right rotation of a 32-bit word. -/
def rotr (n x : Nat) : Nat := m32 ((x >>> n) ||| (x <<< (32 - n)))

/-- SHA-256 big sigma 0. -/
def bigS0 (x : Nat) : Nat := (rotr 2 x) ^^^ (rotr 13 x) ^^^ (rotr 22 x)

/-- SHA-256 big sigma 1. -/
def bigS1 (x : Nat) : Nat := (rotr 6 x) ^^^ (rotr 11 x) ^^^ (rotr 25 x)

/-- SHA-256 small sigma 0. -/
def smallS0 (x : Nat) : Nat := (rotr 7 x) ^^^ (rotr 18 x) ^^^ (x >>> 3)

/-- SHA-256 small sigma 1. -/
def smallS1 (x : Nat) : Nat := (rotr 17 x) ^^^ (rotr 19 x) ^^^ (x >>> 10)

/-- SHA-256 choice function. -/
def chF (x y z : Nat) : Nat := (x &&& y) ^^^ ((4294967295 ^^^ x) &&& z)

/-- SHA-256 majority function. -/
def majF (x y z : Nat) : Nat := (x &&& y) ^^^ (x &&& z) ^^^ (y &&& z)

/-- The 64 SHA-256 round constants (decimal). -/
def sha256K : List Nat :=
  [1116352408, 1899447441, 3049323471, 3921009573, 961987163,
   1508970993, 2453635748, 2870763221, 3624381080, 310598401,
   607225278, 1426881987, 1925078388, 2162078206, 2614888103,
   3248222580, 3835390401, 4022224774, 264347078, 604807628,
   770255983, 1249150122, 1555081692, 1996064986, 2554220882,
   2821834349, 2952996808, 3210313671, 3336571891, 3584528711,
   113926993, 338241895, 666307205, 773529912, 1294757372,
   1396182291, 1695183700, 1986661051, 2177026350, 2456956037,
   2730485921, 2820302411, 3259730800, 3345764771, 3516065817,
   3600352804, 4094571909, 275423344, 430227734, 506948616,
   659060556, 883997877, 958139571, 1322822218, 1537002063,
   1747873779, 1955562222, 2024104815, 2227730452, 2361852424,
   2428436474, 2756734187, 3204031479, 3329325298]

/-- SHA-256 working state: the eight 32-bit hash values. -/
structure H8 where
  a : Nat
  b : Nat
  c : Nat
  d : Nat
  e : Nat
  f : Nat
  g : Nat
  h : Nat
deriving DecidableEq

/-- Initial SHA-256 hash state (decimal). -/
def sha256Init : H8 :=
  ⟨1779033703, 3144134277, 1013904242, 2773480762,
   1359893119, 2600822924, 528734635, 1541459225⟩

/-- One SHA-256 round with round constant `k` and schedule word `w`. -/
def sha256Round (k w : Nat) (s : H8) : H8 :=
  let t1 := m32 (s.h + bigS1 s.e + chF s.e s.f s.g + k + w)
  let t2 := m32 (bigS0 s.a + majF s.a s.b s.c)
  ⟨m32 (t1 + t2), s.a, s.b, s.c, m32 (s.d + t1), s.e, s.f, s.g⟩

/-- Run the 64 rounds over the paired (constant, schedule word) list. -/
def sha256Rounds : List (Nat × Nat) → H8 → H8
  | [], s => s
  | (k, w) :: rest, s => sha256Rounds rest (sha256Round k w s)

/-- Extend the message schedule: `rev` holds the words produced so far,
most recent first; `n` more words are produced. -/
def sha256Extend : Nat → List Nat → List Nat
  | 0, rev => rev
  | n + 1, rev =>
      let w := m32 (smallS1 (rev.getD 1 0) + rev.getD 6 0 +
                    smallS0 (rev.getD 14 0) + rev.getD 15 0)
      sha256Extend n (w :: rev)

/-- Big-endian 32-bit words from a byte list (length a multiple of 4). -/
def toWords : List Nat → List Nat
  | b1 :: b2 :: b3 :: b4 :: rest =>
      (b1 * 16777216 + b2 * 65536 + b3 * 256 + b4) :: toWords rest
  | _ => []

/-- One SHA-256 compression step over a 64-byte block. -/
def sha256Block (s : H8) (block : List Nat) : H8 :=
  let w16 := toWords block
  let w64 := (sha256Extend 48 w16.reverse).reverse
  let t := sha256Rounds (sha256K.zip w64) s
  ⟨m32 (s.a + t.a), m32 (s.b + t.b), m32 (s.c + t.c), m32 (s.d + t.d),
   m32 (s.e + t.e), m32 (s.f + t.f), m32 (s.g + t.g), m32 (s.h + t.h)⟩

/-- Split a byte list into 64-byte chunks (`fuel` bounds the recursion). -/
def chunks64 : Nat → List Nat → List (List Nat)
  | _, [] => []
  | 0, _ => []
  | fuel + 1, l => l.take 64 :: chunks64 fuel (l.drop 64)

/-- SHA-256 padding: 0x80, zeros to 56 mod 64, then the 64-bit bit length. -/
def sha256Pad (msg : List Nat) : List Nat :=
  let len := msg.length
  let zeros := (120 - (len + 1) % 64) % 64
  let bits := 8 * len
  msg ++ 128 :: List.replicate zeros 0 ++
    [(bits >>> 56) % 256, (bits >>> 48) % 256, (bits >>> 40) % 256,
     (bits >>> 32) % 256, (bits >>> 24) % 256, (bits >>> 16) % 256,
     (bits >>> 8) % 256, bits % 256]

/-- Big-endian bytes of one 32-bit word. -/
def wordBytes (x : Nat) : List Nat :=
  [x / 16777216 % 256, x / 65536 % 256, x / 256 % 256, x % 256]

/-- The 32-byte digest of a final hash state. -/
def digestBytes (s : H8) : List Nat :=
  wordBytes s.a ++ wordBytes s.b ++ wordBytes s.c ++ wordBytes s.d ++
  wordBytes s.e ++ wordBytes s.f ++ wordBytes s.g ++ wordBytes s.h

/-- SHA-256 of a byte list (Go crypto/sha256). -/
def sha256 (msg : List Nat) : List Nat :=
  let padded := sha256Pad msg
  digestBytes ((chunks64 padded.length padded).foldl sha256Block sha256Init)

/-- HMAC-SHA256 (Go crypto/hmac with crypto/sha256, block size 64). -/
def hmacSha256 (key msg : List Nat) : List Nat :=
  let k0 := if 64 < key.length then sha256 key else key
  let kp := k0 ++ List.replicate (64 - k0.length) 0
  sha256 ((kp.map (fun b => b ^^^ 92)) ++
          sha256 ((kp.map (fun b => b ^^^ 54)) ++ msg))

/- ## Base64 (Go encoding/base64 StdEncoding) -/

/-- Character of a 6-bit value in the standard base64 alphabet. -/
def b64char (n : Nat) : Nat :=
  if n < 26 then 65 + n
  else if n < 52 then 97 + (n - 26)
  else if n < 62 then 48 + (n - 52)
  else if n = 62 then 43
  else 47

/-- Standard base64 encoding with padding (Go StdEncoding.EncodeToString). -/
def b64encode : List Nat → Str
  | [] => []
  | [a] => [b64char (a / 4), b64char (a % 4 * 16), 61, 61]
  | [a, b] => [b64char (a / 4), b64char (a % 4 * 16 + b / 16),
               b64char (b % 16 * 4), 61]
  | a :: b :: c :: rest =>
      b64char (a / 4) :: b64char (a % 4 * 16 + b / 16) ::
      b64char (b % 16 * 4 + c / 64) :: b64char (c % 64) :: b64encode rest

/-- Value of one base64 alphabet character. -/
def b64val (c : Nat) : Option Nat :=
  if 65 ≤ c ∧ c ≤ 90 then some (c - 65)
  else if 97 ≤ c ∧ c ≤ 122 then some (c - 97 + 26)
  else if 48 ≤ c ∧ c ≤ 57 then some (c - 48 + 52)
  else if c = 43 then some 62
  else if c = 47 then some 63
  else none

/-- Decode base64 four characters at a time; `=` padding only at the end. -/
def b64groups : List Nat → Option (List Nat)
  | [] => some []
  | c1 :: c2 :: c3 :: c4 :: rest =>
      match b64val c1, b64val c2 with
      | some v1, some v2 =>
          if c3 = 61 then
            if c4 = 61 ∧ rest = [] then some [v1 * 4 + v2 / 16] else none
          else
            match b64val c3 with
            | some v3 =>
                if c4 = 61 then
                  if rest = [] then
                    some [v1 * 4 + v2 / 16, v2 % 16 * 16 + v3 / 4]
                  else none
                else
                  match b64val c4, b64groups rest with
                  | some v4, some bs =>
                      some ((v1 * 4 + v2 / 16) :: (v2 % 16 * 16 + v3 / 4) ::
                            (v3 % 4 * 64 + v4) :: bs)
                  | _, _ => none
            | none => none
      | _, _ => none
  | _ => none

/-- Go base64.StdEncoding.DecodeString: newlines ignored, else strict
four-character groups; the empty string decodes to the empty byte list. -/
def b64decode (s : Str) : Option (List Nat) :=
  b64groups (s.filter (fun c => c ≠ 10 ∧ c ≠ 13))

/- ## Wire codec -/

/-- Split a byte string at every occurrence of byte `b`
(Go strings.Split: splitting the empty string yields one empty piece). -/
def splitByte (b : Nat) : Str → List Str
  | [] => [[]]
  | c :: rest =>
      match splitByte b rest with
      | [] => [[]]
      | h :: t => if c == b then [] :: h :: t else (c :: h) :: t

/-- Modelled from the spec: WireCodec.decodeResponseFields strips the
`openid.` namespace from one key; keys without the namespace are dropped
(the function itself is not among the repository files under src/). -/
def stripNS (k : Str) : Option Str :=
  if k.take 7 == str "openid." then some (k.drop 7) else none

/-- Modelled from the spec: `parseHTTP`, the decode half of WireCodec used
by IDRes on the callback query: strip the `openid.` namespace from each
key, ignore keys without it (src/openid.go calls it; its file is absent). -/
def parseHTTP (q : List (Str × Str)) : Dict :=
  q.filterMap (fun p => (stripNS p.1).map (fun k => (k, p.2)))

/-- Modelled from the spec: `encodeHTTP`, the encode half of WireCodec:
every protocol field name is prefixed with `openid.` before URL-encoding
(src/openid.go calls it; its file is absent). -/
def encodeHTTP (values : List (Str × Str)) : List (Str × Str) :=
  values.map (fun p => (str "openid." ++ p.1, p.2))

/-- Go net/url QueryEscape: alphanumerics and `-._~` kept, space becomes
`+`, every other byte becomes `%XX` with uppercase hex. -/
def hexUp (n : Nat) : Nat := if n < 10 then 48 + n else 55 + n

/-- Whether Go net/url leaves the byte unescaped in a query string. -/
def unreserved (c : Nat) : Bool :=
  (65 ≤ c && c ≤ 90) || (97 ≤ c && c ≤ 122) || (48 ≤ c && c ≤ 57) ||
  c == 45 || c == 46 || c == 95 || c == 126

/-- Go net/url QueryEscape over the bytes of a string. -/
def queryEscape : Str → Str
  | [] => []
  | c :: rest =>
      if unreserved c then c :: queryEscape rest
      else if c == 32 then 43 :: queryEscape rest
      else 37 :: hexUp (c / 16) :: hexUp (c % 16) :: queryEscape rest

/-- Byte-wise lexicographic order on strings (Go sort.Strings). -/
def lexLt : Str → Str → Bool
  | [], [] => false
  | [], _ :: _ => true
  | _ :: _, [] => false
  | a :: as, b :: bs => if a < b then true else if b < a then false else lexLt as bs

/-- Insert one pair into a key-sorted pair list. -/
def insertPair (p : Str × Str) : List (Str × Str) → List (Str × Str)
  | [] => [p]
  | q :: rest => if lexLt q.1 p.1 then q :: insertPair p rest else p :: q :: rest

/-- Sort pairs by key (Go url.Values.Encode sorts the keys). -/
def sortPairs : List (Str × Str) → List (Str × Str)
  | [] => []
  | p :: rest => insertPair p (sortPairs rest)

/-- Join strings with `&` between them. -/
def joinAmp : List Str → Str
  | [] => []
  | [x] => x
  | x :: rest => x ++ 38 :: joinAmp rest

/-- Go url.Values.Encode: keys sorted, each pair escaped as `k=v`,
joined with `&`. -/
def encodeQuery (l : List (Str × Str)) : Str :=
  joinAmp ((sortPairs l).map (fun p => queryEscape p.1 ++ 61 :: queryEscape p.2))

/-- Split one key-value line at its first `:`; `none` when the line has no
separator. -/
def splitColon : Str → Option (Str × Str)
  | [] => none
  | c :: rest =>
      if c == 58 then some ([], rest)
      else (splitColon rest).map (fun p => (c :: p.1, p.2))

/-- Each line to its `key:value` pair; any line without `:` fails the body. -/
def linesKV : List Str → Option Dict
  | [] => some []
  | line :: rest =>
      match splitColon line, linesKV rest with
      | some p, some d => some (p :: d)
      | _, _ => none

/-- Leading blank lines removed. -/
def dropBlank (l : List Str) : List Str := l.dropWhile (fun s => s.isEmpty)

/-- Modelled from the spec: WireCodec.decodeKeyValueBody / `parseKeyValue`:
one `key:value` pair per newline-separated line, leading and trailing blank
lines ignored, failure when a line lacks a `:` separator (src/openid.go
calls `parseKeyValue`; its file is absent). -/
def parseKeyValue (body : List Nat) : Option Dict :=
  linesKV ((dropBlank ((dropBlank (splitByte 10 body)).reverse)).reverse)

/- ## Go integers and time -/

/-- Wrap an Int to Go's signed 64-bit range (overflow wraps around). -/
def wrap64 (x : Int) : Int :=
  (x + 9223372036854775808) % 18446744073709551616 - 9223372036854775808

/-- All bytes are ASCII decimal digits. -/
def allDigits (l : List Nat) : Bool := l.all (fun c => 48 ≤ c && c ≤ 57)

/-- Numeric value of an ASCII digit string. -/
def digitsVal (l : List Nat) : Nat := l.foldl (fun acc c => acc * 10 + (c - 48)) 0

/-- Go strconv.Atoi on a 64-bit platform: optional sign, at least one
digit, nothing else, and the value must fit in int64 (on overflow Atoi
reports an error, which src/openid.go turns into a failed handshake). -/
def goAtoi (s : Str) : Option Int :=
  match s with
  | [] => none
  | 43 :: rest =>
      if rest ≠ [] ∧ allDigits rest ∧ digitsVal rest ≤ 9223372036854775807
      then some (digitsVal rest) else none
  | 45 :: rest =>
      if rest ≠ [] ∧ allDigits rest ∧ digitsVal rest ≤ 9223372036854775808
      then some (-(digitsVal rest : Int)) else none
  | l =>
      if allDigits l ∧ digitsVal l ≤ 9223372036854775807
      then some (digitsVal l) else none

/- ## Associations (src/openid.go: type Association, associations) -/

/-- An Association as built by src/openid.go lines 164-170: endpoint,
handle, decoded secret, type, absolute expiry (nanoseconds). -/
structure Association where
  endpointOf : Str
  handle : Str
  secret : List Nat
  assocTypeOf : Str
  expires : Int
deriving DecidableEq

/-- The associations store: endpoint keyed, one entry per endpoint. -/
abbrev Store := List (Str × Association)

/-- Raw lookup in the store. -/
def sfind : Store → Str → Option Association
  | [], _ => none
  | (k, a) :: rest, e => if k == e then some a else sfind rest e

/-- Overwrite-or-append insertion (associations.set). -/
def storeSet : Store → Str → Association → Store
  | [], e, a => [(e, a)]
  | (k, a') :: rest, e, a =>
      if k == e then (e, a) :: rest else (k, a') :: storeSet rest e a

/-- Modelled from the spec: `associations.get` (absent from src/), which
per the spec must compare the Association's expiry against the current
time and report absence when the expiry is in the past. -/
def storeGet (s : Store) (e : Str) (now : Int) : Option Association :=
  match sfind s e with
  | none => none
  | some a => if a.expires < now then none else some a

/-- Modelled from the spec: the signing canonical buffer, `name:value\n`
appended for each listed name in order, the value taken from the decoded
fields or the empty string when absent. -/
def signBuffer (user : Dict) (names : List Str) : List Nat :=
  (names.map (fun n => n ++ 58 :: dgetD user n ++ [10])).flatten

/-- Modelled from the spec: `Association.sign` (absent from src/):
HMAC-SHA256 of the canonical buffer under the Association's secret,
base64-encoded. -/
def sign (a : Association) (user : Dict) (names : List Str) : Str :=
  b64encode (hmacSha256 a.secret (signBuffer user names))

/- ## The OpenID engine (src/openid.go) -/

/-- The spec's verification error taxonomy; src/openid.go reports
unknown-association and signature-mismatch failures as distinct errors. -/
inductive VerifyErr where
  | malformedCallback : VerifyErr
  | unknownAssociation : Str → VerifyErr
  | verificationFailed : Str → VerifyErr
deriving DecidableEq

/-- Outcome of IDRes: the decoded Claims, or an explicit failure. -/
inductive VerifyResult where
  | claims : Dict → VerifyResult
  | fail : VerifyErr → VerifyResult
deriving DecidableEq

/-- IDRes (src/openid.go lines 102-120): decode the callback query, look
up the Association for op_endpoint, recompute the signature over the
comma-separated `signed` list, compare with `sig`. -/
def IDRes (q : List (Str × Str)) (s : Store) (now : Int) : VerifyResult :=
  let user := parseHTTP q
  let ep := dgetD user (str "op_endpoint")
  match storeGet s ep now with
  | none => .fail (.unknownAssociation ep)
  | some a =>
      if sign a user (splitByte 44 (dgetD user (str "signed"))) ==
         dgetD user (str "sig")
      then .claims user
      else .fail (.verificationFailed ep)

/-- The provider as seen over HTTP: a URL mapped to a status code and a
response body, or `none` for a transport error (Go http.Get returns an
error only for transport failures, never for a non-2xx status). -/
abbrev Network := Str → Option (Nat × List Nat)

/-- The query string of the associate request built at src/openid.go
lines 125-136. -/
def assocQuery : Str :=
  encodeQuery (encodeHTTP
    [(str "mode", str "associate"), (str "assoc_type", str "hmac-sha256")])

/-- What one associate call produces: the Association (or `nil`), the
store afterwards, and how many provider requests were issued. -/
structure AssocResult where
  assoc : Option Association
  store : Store
  requests : Nat
deriving DecidableEq

/-- associate (src/openid.go lines 124-176): return a cached Association,
else handshake: GET the endpoint, parse the key-value body, base64-decode
mac_key, Atoi expires_in, build the Association with expiry now plus
expires_in seconds (nanosecond conversion wrapping at int64), store it. -/
def associate (net : Network) (ep : Str) (s : Store) (now : Int) : AssocResult :=
  match storeGet s ep now with
  | some a => ⟨some a, s, 0⟩
  | none =>
      match net (ep ++ 63 :: assocQuery) with
      | none => ⟨none, s, 1⟩
      | some (_status, body) =>
          match parseKeyValue body with
          | none => ⟨none, s, 1⟩
          | some kv =>
              match b64decode (dgetD kv (str "mac_key")) with
              | none => ⟨none, s, 1⟩
              | some secret =>
                  match goAtoi (dgetD kv (str "expires_in")) with
                  | none => ⟨none, s, 1⟩
                  | some n =>
                      let a : Association :=
                        ⟨ep, dgetD kv (str "assoc_handle"), secret,
                         dgetD kv (str "assoc_type"),
                         now + wrap64 (n * 1000000000)⟩
                      ⟨some a, storeSet s ep a, 1⟩

/-- What CheckIDSetup returns: the redirect URL or the associate failure,
plus the store afterwards. -/
structure SetupResult where
  url : Option Str
  store : Store
  requests : Nat
deriving DecidableEq

/-- CheckIDSetup (src/openid.go lines 75-99): associate, then build
`opEndpoint?` followed by the url.Values encoding of the eight
`openid.`-prefixed fields, with return_to the realm joined to the
callback path by a slash. -/
def CheckIDSetup (net : Network) (realm ep cbPath : Str) (s : Store)
    (now : Int) : SetupResult :=
  let r := associate net ep s now
  match r.assoc with
  | none => ⟨none, r.store, r.requests⟩
  | some a =>
      let values : List (Str × Str) :=
        [(str "mode", str "checkid_setup"),
         (str "ns", str "http://specs.openid.net/auth/2.0"),
         (str "assoc_handle", a.handle),
         (str "return_to", realm ++ 47 :: cbPath),
         (str "claimed_id", str "http://specs.openid.net/auth/2.0/identifier"),
         (str "identity", str "http://specs.openid.net/auth/2.0/identifier_select"),
         (str "ns.sreg", str "http://openid.net/extensions/sreg/1.1"),
         (str "sreg.required", str "nickname,email,fullname")]
      ⟨some (ep ++ 63 :: encodeQuery (encodeHTTP values)), r.store, r.requests⟩

/- ## The login middleware accessor (src/login/id.go) -/

/-- A value held by the external session store, with its Go dynamic type:
the user map the middleware stores, a string, or anything else. -/
inductive SessVal where
  | userMap : Dict → SessVal
  | strVal : Str → SessVal
  | otherVal : SessVal
deriving DecidableEq

/-- The session seen as its key-value content (spec interface:
store/load/delete keyed by strings). -/
abbrev Session := List (Str × SessVal)

/-- Modelled from the spec: the session collaborator's
`load(key) -> value, found` (the sessions package is external). -/
def sessLoad (s : Session) (k : Str) : Option SessVal :=
  (s.find? (fun p => p.1 == k)).map (fun p => p.2)

/-- The session key under which src/login/id.go stores the user map. -/
def sesKeyOpenID : Str := str "github.com/shuaiming/openid/login.User"

/-- Outcome of GetUser: (map, true), (nil, false), or a Go runtime panic
from the unchecked type assertion. -/
inductive UserResult where
  | found : Dict → UserResult
  | notFound : UserResult
  | panicked : UserResult
deriving DecidableEq

/-- GetUser (src/login/id.go lines 123-131): load the session value and
run the unchecked cast `user.(map[string]string)`, which panics when the
dynamic type is anything else. -/
def GetUser (s : Session) : UserResult :=
  match sessLoad s sesKeyOpenID with
  | none => .notFound
  | some (.userMap m) => .found m
  | some _ => .panicked

/- ## Concrete data for witnesses and counterexamples -/

/-- Example provider endpoint. -/
def epEx : Str := str "https://op"

/-- Example Association with secret `key`, expiring at t = 1000 ns. -/
def assocEx : Association := ⟨epEx, str "AH1", str "key", str "hmac-sha256", 1000⟩

/-- Store holding the live example Association. -/
def storeEx : Store := [(epEx, assocEx)]

/-- The same Association already expired at t = 5 ns. -/
def assocOld : Association := ⟨epEx, str "AH1", str "key", str "hmac-sha256", 5⟩

/-- Store holding only the expired Association. -/
def storeOld : Store := [(epEx, assocOld)]

/-- A correctly signed callback query for `assocEx` (signature computed
with HMAC-SHA256 over `mode:id_res\nidentity:alice\n` under key `key`). -/
def queryEx : List (Str × Str) :=
  [(str "openid.op_endpoint", str "https://op"),
   (str "openid.signed", str "mode,identity"),
   (str "openid.mode", str "id_res"),
   (str "openid.identity", str "alice"),
   (str "openid.sig", str "TencvtqXDuphxXq7nu6xFTrkzi97PHwpmWibgCg78/U=")]

/-- A callback query with `op_endpoint` and `signed` but no `sig`. -/
def queryNoSig : List (Str × Str) :=
  [(str "openid.op_endpoint", str "https://op"),
   (str "openid.signed", str "mode"),
   (str "openid.mode", str "id_res")]

/-- A provider that always answers with the given status and body. -/
def constNet (r : Option (Nat × List Nat)) : Network := fun _ => r

/- ## Helper lemmas -/

theorem wrap64_of_bounds (x : Int) (h1 : -9223372036854775808 ≤ x)
    (h2 : x ≤ 9223372036854775807) : wrap64 x = x := by
  unfold wrap64
  rw [Int.emod_eq_of_lt (by omega) (by omega)]
  omega

theorem sfind_storeSet (s : Store) (e : Str) (a : Association) :
    sfind (storeSet s e a) e = some a := by
  induction s with
  | nil => simp [storeSet, sfind]
  | cons p rest ih =>
      obtain ⟨k, a'⟩ := p
      by_cases h : (k == e) = true
      · simp [storeSet, h, sfind]
      · simp [storeSet, h, sfind, ih]

theorem digestBytes_ne_nil (st : H8) : digestBytes st ≠ [] := by
  obtain ⟨a, b, c, d, e, f, g, h⟩ := st
  simp [digestBytes, wordBytes]

theorem sha256_ne_nil (m : List Nat) : sha256 m ≠ [] :=
  digestBytes_ne_nil _

theorem hmacSha256_ne_nil (k m : List Nat) : hmacSha256 k m ≠ [] :=
  sha256_ne_nil _

theorem b64encode_ne_nil (l : List Nat) (h : l ≠ []) : b64encode l ≠ [] := by
  match l with
  | [] => exact absurd rfl h
  | [a] => simp [b64encode]
  | [a, b] => simp [b64encode]
  | a :: b :: c :: rest => simp [b64encode]

theorem sign_ne_nil (a : Association) (user : Dict) (names : List Str) :
    sign a user names ≠ [] :=
  b64encode_ne_nil _ (hmacSha256_ne_nil _ _)

theorem associate_requests_of_miss (net : Network) (ep : Str) (s : Store)
    (now : Int) (h : storeGet s ep now = none) :
    (associate net ep s now).requests = 1 := by
  cases hnet : net (ep ++ 63 :: assocQuery) with
  | none => simp [associate, h, hnet]
  | some p =>
      obtain ⟨st, body⟩ := p
      cases hkv : parseKeyValue body with
      | none => simp [associate, h, hnet, hkv]
      | some kv =>
          cases hb : b64decode (dgetD kv (str "mac_key")) with
          | none => simp [associate, h, hnet, hkv, hb]
          | some secret =>
              cases ha : goAtoi (dgetD kv (str "expires_in")) with
              | none => simp [associate, h, hnet, hkv, hb, ha]
              | some n => simp [associate, h, hnet, hkv, hb, ha]

/- ## Claims -/

/-- C1: with an Association on hand for the callback's op_endpoint, IDRes
recomputes base64(HMAC-SHA256(secret, the `name:value\n` lines of the
comma-separated `signed` list in order, absent fields as empty)) and
returns the decoded fields as Claims exactly when it equals `sig`,
failing with the signature-mismatch (VerificationError) failure
otherwise. -/
theorem IDRes_signature_check (q : List (Str × Str)) (s : Store) (now : Int)
    (a : Association)
    (h : storeGet s (dgetD (parseHTTP q) (str "op_endpoint")) now = some a) :
    IDRes q s now =
      if b64encode (hmacSha256 a.secret (signBuffer (parseHTTP q)
            (splitByte 44 (dgetD (parseHTTP q) (str "signed"))))) ==
          dgetD (parseHTTP q) (str "sig")
      then VerifyResult.claims (parseHTTP q)
      else VerifyResult.fail
        (VerifyErr.verificationFailed (dgetD (parseHTTP q) (str "op_endpoint"))) := by
  simp only [IDRes, sign, h]

set_option maxRecDepth 20000

theorem IDRes_signature_check_witness :
    IDRes queryEx storeEx 0 = VerifyResult.claims (parseHTTP queryEx) := by
  rw [IDRes_signature_check queryEx storeEx 0 assocEx (by decide)]
  decide

/-- C2: a stored Association whose expiry is past is reported absent by
the lookup, a subsequent associate call for that endpoint performs a new
handshake, and verification against the expired Association fails with
the unknown-association failure. -/
theorem expired_assoc_not_returned (s : Store) (ep : Str) (a : Association)
    (now : Int) (net : Network) (q : List (Str × Str))
    (hfind : sfind s ep = some a) (hexp : a.expires < now) :
    storeGet s ep now = none ∧
    (associate net ep s now).requests = 1 ∧
    (dgetD (parseHTTP q) (str "op_endpoint") = ep →
      IDRes q s now = VerifyResult.fail (VerifyErr.unknownAssociation ep)) := by
  have hget : storeGet s ep now = none := by
    simp [storeGet, hfind, hexp]
  refine ⟨hget, associate_requests_of_miss net ep s now hget, fun hep => ?_⟩
  simp only [IDRes, hep, hget]

theorem expired_assoc_not_returned_witness :
    storeGet storeOld epEx 10 = none ∧
    (associate (constNet none) epEx storeOld 10).requests = 1 ∧
    IDRes queryEx storeOld 10 =
      VerifyResult.fail (VerifyErr.unknownAssociation epEx) := by
  have h := expired_assoc_not_returned storeOld epEx assocOld 10
    (constNet none) queryEx (by decide) (by decide)
  exact ⟨h.1, h.2.1, h.2.2 (by decide)⟩

/-- C3 counterexample: a callback missing op_endpoint, signed and sig is
rejected with the unknown-association failure, not with a distinct
missing-field (MalformedCallbackError) failure. -/
theorem missing_fields_not_malformed :
    IDRes [] [] 0 = VerifyResult.fail (VerifyErr.unknownAssociation []) ∧
    IDRes [] [] 0 ≠ VerifyResult.fail VerifyErr.malformedCallback := by
  constructor
  · rfl
  · decide

/-- C3 amended: IDRes performs no missing-field check; with no (live)
Association for the callback's op_endpoint — also when the field is
absent and the endpoint is the empty string — it fails with the
unknown-association failure, and with an Association on hand but `sig`
absent it proceeds to the comparison and fails with the
signature-mismatch failure (the recomputed base64 MAC is never empty);
no MalformedCallbackError exists in the code. -/
theorem IDRes_no_missing_field_check (q : List (Str × Str)) (s : Store)
    (now : Int) :
    (storeGet s (dgetD (parseHTTP q) (str "op_endpoint")) now = none →
      IDRes q s now = VerifyResult.fail
        (VerifyErr.unknownAssociation (dgetD (parseHTTP q) (str "op_endpoint")))) ∧
    (∀ a, storeGet s (dgetD (parseHTTP q) (str "op_endpoint")) now = some a →
      dget (parseHTTP q) (str "sig") = none →
      IDRes q s now = VerifyResult.fail
        (VerifyErr.verificationFailed (dgetD (parseHTTP q) (str "op_endpoint")))) := by
  constructor
  · intro h
    simp only [IDRes, h]
  · intro a h hsig
    simp only [IDRes, h]
    have hne : sign a (parseHTTP q)
        (splitByte 44 (dgetD (parseHTTP q) (str "signed"))) ≠ [] :=
      sign_ne_nil _ _ _
    have hd : dgetD (parseHTTP q) (str "sig") = [] := by
      simp [dgetD, hsig]
    rw [hd]
    simp only [sign] at hne ⊢
    rw [if_neg (by simpa using hne)]

theorem IDRes_no_missing_field_check_witness :
    IDRes queryNoSig storeEx 0 =
      VerifyResult.fail (VerifyErr.verificationFailed (str "https://op")) := by
  have h := (IDRes_no_missing_field_check queryNoSig storeEx 0).2 assocEx
    (by decide) (by decide)
  exact h

/- ## Handshake response bodies for C4-C8 -/

/-- Handshake body with no mac_key field at all. -/
def body4 : List Nat :=
  str "assoc_handle:AH1\nassoc_type:hmac-sha256\nexpires_in:3600\n"

/-- The Association src/openid.go builds from `body4`: its secret is the
base64 decoding of the missing field's zero value `""`, i.e. empty. -/
def assoc4 : Association :=
  ⟨epEx, str "AH1", [], str "hmac-sha256", 3600000000000⟩

/-- Well-formed handshake body (mac_key `aaaa` decodes to 3 bytes). -/
def body5 : List Nat :=
  str "assoc_handle:AH1\nmac_key:aaaa\nassoc_type:hmac-sha256\nexpires_in:3600\n"

/-- The Association built from `body5`. -/
def assoc5 : Association :=
  ⟨epEx, str "AH1", [105, 166, 154], str "hmac-sha256", 3600000000000⟩

/-- The spec's round-trip example body: handle AH1, a base64 mac_key of
16 bytes, hmac-sha256, expires_in 3600. -/
def body6 : List Nat :=
  str "assoc_handle:AH1\nmac_key:MDEyMzQ1Njc4OWFiY2RlZg==\nassoc_type:hmac-sha256\nexpires_in:3600\n"

/-- The key-value fields of `body6`. -/
def kv6 : Dict :=
  [(str "assoc_handle", str "AH1"),
   (str "mac_key", str "MDEyMzQ1Njc4OWFiY2RlZg=="),
   (str "assoc_type", str "hmac-sha256"),
   (str "expires_in", str "3600")]

/-- The Association built from `body6` at time 0: 16-byte secret,
expiry 3600 seconds later. -/
def assoc6 : Association :=
  ⟨epEx, str "AH1", str "0123456789abcdef", str "hmac-sha256", 3600000000000⟩

/-- Handshake body whose expires_in of 10^10 seconds overflows the int64
nanosecond conversion in src/openid.go line 162. -/
def bodyOvf : List Nat :=
  str "assoc_handle:AH1\nmac_key:MDEyMzQ1Njc4OWFiY2RlZg==\nassoc_type:hmac-sha256\nexpires_in:10000000000\n"

/-- Shared shape of a cache-miss handshake that succeeds: the Association
is built field by field from the decoded body, with expiry now plus
expires_in seconds when the nanosecond conversion does not overflow, and
it is both stored and returned with exactly one provider request. -/
theorem associate_handshake_result (net : Network) (ep : Str) (s : Store)
    (now : Int) (status : Nat) (body : List Nat) (kv : Dict)
    (secret : List Nat) (n : Int)
    (h0 : storeGet s ep now = none)
    (h1 : net (ep ++ 63 :: assocQuery) = some (status, body))
    (h2 : parseKeyValue body = some kv)
    (h3 : b64decode (dgetD kv (str "mac_key")) = some secret)
    (h4 : goAtoi (dgetD kv (str "expires_in")) = some n)
    (h5 : -9223372036854775808 ≤ n * 1000000000)
    (h6 : n * 1000000000 ≤ 9223372036854775807) :
    associate net ep s now =
      ⟨some ⟨ep, dgetD kv (str "assoc_handle"), secret,
             dgetD kv (str "assoc_type"), now + n * 1000000000⟩,
       storeSet s ep ⟨ep, dgetD kv (str "assoc_handle"), secret,
             dgetD kv (str "assoc_type"), now + n * 1000000000⟩, 1⟩ := by
  simp [associate, h0, h1, h2, h3, h4, wrap64_of_bounds _ h5 h6]

/-- C4: on the handshake body with no mac_key, associate does NOT fail;
Go's base64 decoder accepts the empty string, so an Association with an
empty secret is built, stored for the endpoint and returned. -/
theorem missing_mac_key_stores_empty_secret :
    associate (constNet (some (200, body4))) epEx [] 0 =
      ⟨some assoc4, [(epEx, assoc4)], 1⟩ ∧ assoc4.secret = [] := by
  constructor
  · decide
  · rfl

/-- C5: the handshake never inspects the HTTP status: a 404 response with
a parseable body still yields a stored Association (http.Get only errors
on transport failure, and src/openid.go never reads resp.StatusCode). -/
theorem non_2xx_handshake_accepted :
    associate (constNet (some (404, body5))) epEx [] 0 =
      ⟨some assoc5, [(epEx, assoc5)], 1⟩ := by
  decide

/-- C6 counterexample: a successful handshake whose expires_in is 10^10
seconds wraps the int64 nanosecond conversion; with now = 0 the stored
expiry is a huge negative instant, not now + expires_in seconds
(10^19 ns). -/
theorem expires_in_overflow :
    ((associate (constNet (some (200, bodyOvf))) epEx [] 0).assoc.map
       Association.expires) = some (-8446744073709551616) ∧
    ((associate (constNet (some (200, bodyOvf))) epEx [] 0).assoc.map
       Association.expires) ≠ some 10000000000000000000 := by
  constructor
  · decide
  · decide

/-- C6 amended: a successful handshake builds the Association from the
decoded fields — handle from assoc_handle, secret the base64 decoding of
mac_key, type from assoc_type — and, whenever expires_in · 10^9 fits in
int64, expiry now + expires_in seconds; it is stored and returned. -/
theorem associate_success_builds_association (net : Network) (ep : Str)
    (s : Store) (now : Int) (status : Nat) (body : List Nat) (kv : Dict)
    (secret : List Nat) (n : Int)
    (h0 : storeGet s ep now = none)
    (h1 : net (ep ++ 63 :: assocQuery) = some (status, body))
    (h2 : parseKeyValue body = some kv)
    (h3 : b64decode (dgetD kv (str "mac_key")) = some secret)
    (h4 : goAtoi (dgetD kv (str "expires_in")) = some n)
    (h5 : -9223372036854775808 ≤ n * 1000000000)
    (h6 : n * 1000000000 ≤ 9223372036854775807) :
    associate net ep s now =
      ⟨some ⟨ep, dgetD kv (str "assoc_handle"), secret,
             dgetD kv (str "assoc_type"), now + n * 1000000000⟩,
       storeSet s ep ⟨ep, dgetD kv (str "assoc_handle"), secret,
             dgetD kv (str "assoc_type"), now + n * 1000000000⟩, 1⟩ :=
  associate_handshake_result net ep s now status body kv secret n
    h0 h1 h2 h3 h4 h5 h6

theorem associate_success_builds_association_witness :
    associate (constNet (some (200, body6))) epEx [] 0 =
      ⟨some assoc6, [(epEx, assoc6)], 1⟩ := by
  rw [associate_success_builds_association (constNet (some (200, body6)))
    epEx [] 0 200 body6 kv6 (str "0123456789abcdef") 3600 (by decide)
    (by decide) (by decide) (by decide) (by decide) (by decide) (by decide)]
  decide

/- ## C7: the authentication redirect URL -/

/-- Endpoint used in the spec's URL-construction example. -/
def ep7 : Str := str "https://op.example/openid"

/-- A live Association with handle AH1 for `ep7`. -/
def assoc7 : Association := ⟨ep7, str "AH1", str "key", str "hmac-sha256", 1000⟩

/-- Store caching `assoc7`. -/
def store7 : Store := [(ep7, assoc7)]

/-- C7 counterexample: calling CheckIDSetup with second argument
`https://rp.example/verify` (and realm `https://localhost`) produces a
query whose components do NOT include
`openid.return_to=https%3A%2F%2Frp.example%2Fverify`: the second argument
is a callback path that is appended to the realm, not the return URL. -/
theorem return_to_not_the_given_url :
    ((CheckIDSetup (constNet none) (str "https://localhost") ep7
        (str "https://rp.example/verify") store7 0).url).map
      (fun u => (splitByte 38 (u.drop 26)).contains
        (str "openid.return_to=https%3A%2F%2Frp.example%2Fverify")) =
      some false := by
  decide

/-- C7 amended: with a live Association on hand, CheckIDSetup returns the
endpoint, `?`, and the sorted url.Values encoding of exactly the eight
`openid.`-prefixed fields — mode=checkid_setup, ns, assoc_handle the
Association's handle, claimed_id, identity, ns.sreg, sreg.required, and
return_to the realm joined to the callback path by `/` (form-URL-encoded),
not the second argument verbatim. -/
theorem CheckIDSetup_query_fields (net : Network) (realm ep cbPath : Str)
    (s : Store) (now : Int) (a : Association)
    (h : storeGet s ep now = some a) :
    CheckIDSetup net realm ep cbPath s now =
      ⟨some (ep ++ 63 ::
        (str "openid.assoc_handle=" ++
          (queryEscape a.handle ++
            (str "&openid.claimed_id=http%3A%2F%2Fspecs.openid.net%2Fauth%2F2.0%2Fidentifier&openid.identity=http%3A%2F%2Fspecs.openid.net%2Fauth%2F2.0%2Fidentifier_select&openid.mode=checkid_setup&openid.ns=http%3A%2F%2Fspecs.openid.net%2Fauth%2F2.0&openid.ns.sreg=http%3A%2F%2Fopenid.net%2Fextensions%2Fsreg%2F1.1&openid.return_to=" ++
              (queryEscape (realm ++ 47 :: cbPath) ++
                str "&openid.sreg.required=nickname%2Cemail%2Cfullname"))))),
       s, 0⟩ := by
  simp only [CheckIDSetup, associate, h]
  rfl

theorem CheckIDSetup_query_fields_witness :
    CheckIDSetup (constNet none) (str "https://rp.example") ep7
      (str "verify") store7 0 =
      ⟨some (str "https://op.example/openid?openid.assoc_handle=AH1&openid.claimed_id=http%3A%2F%2Fspecs.openid.net%2Fauth%2F2.0%2Fidentifier&openid.identity=http%3A%2F%2Fspecs.openid.net%2Fauth%2F2.0%2Fidentifier_select&openid.mode=checkid_setup&openid.ns=http%3A%2F%2Fspecs.openid.net%2Fauth%2F2.0&openid.ns.sreg=http%3A%2F%2Fopenid.net%2Fextensions%2Fsreg%2F1.1&openid.return_to=https%3A%2F%2Frp.example%2Fverify&openid.sreg.required=nickname%2Cemail%2Cfullname"),
       store7, 0⟩ := by
  rw [CheckIDSetup_query_fields (constNet none) (str "https://rp.example")
    ep7 (str "verify") store7 0 assoc7 (by decide)]
  decide

/- ## C8: cache reuse -/

/-- C8: starting from a cache miss whose handshake succeeds, a second
associate call for the same endpoint within the expiry window issues no
provider request at all (whatever the network would answer), and returns
exactly the Association the first call stored, leaving the store as the
first call left it; only the first call performed the one handshake. -/
theorem associate_cache_reuse (net net2 : Network) (ep : Str) (s : Store)
    (now now2 : Int) (status : Nat) (body : List Nat) (kv : Dict)
    (secret : List Nat) (n : Int)
    (h0 : storeGet s ep now = none)
    (h1 : net (ep ++ 63 :: assocQuery) = some (status, body))
    (h2 : parseKeyValue body = some kv)
    (h3 : b64decode (dgetD kv (str "mac_key")) = some secret)
    (h4 : goAtoi (dgetD kv (str "expires_in")) = some n)
    (h5 : -9223372036854775808 ≤ n * 1000000000)
    (h6 : n * 1000000000 ≤ 9223372036854775807)
    (h7 : now2 ≤ now + n * 1000000000) :
    (associate net ep s now).requests = 1 ∧
    (associate net2 ep (associate net ep s now).store now2).requests = 0 ∧
    (associate net2 ep (associate net ep s now).store now2).assoc =
      (associate net ep s now).assoc ∧
    (associate net2 ep (associate net ep s now).store now2).store =
      (associate net ep s now).store := by
  have key := associate_handshake_result net ep s now status body kv secret n
    h0 h1 h2 h3 h4 h5 h6
  rw [key]
  have hget2 : storeGet
      (storeSet s ep ⟨ep, dgetD kv (str "assoc_handle"), secret,
        dgetD kv (str "assoc_type"), now + n * 1000000000⟩) ep now2 =
      some ⟨ep, dgetD kv (str "assoc_handle"), secret,
        dgetD kv (str "assoc_type"), now + n * 1000000000⟩ := by
    unfold storeGet
    rw [sfind_storeSet]
    exact if_neg (not_lt.mpr h7)
  simp [associate, hget2]

theorem associate_cache_reuse_witness :
    (associate (constNet (some (200, body6))) epEx [] 0).requests = 1 ∧
    (associate (constNet none) epEx
      (associate (constNet (some (200, body6))) epEx [] 0).store 100).requests = 0 ∧
    (associate (constNet none) epEx
      (associate (constNet (some (200, body6))) epEx [] 0).store 100).assoc =
      (associate (constNet (some (200, body6))) epEx [] 0).assoc ∧
    (associate (constNet none) epEx
      (associate (constNet (some (200, body6))) epEx [] 0).store 100).store =
      (associate (constNet (some (200, body6))) epEx [] 0).store :=
  associate_cache_reuse (constNet (some (200, body6))) (constNet none) epEx
    [] 0 100 200 body6 kv6 (str "0123456789abcdef") 3600 (by decide)
    (by decide) (by decide) (by decide) (by decide) (by decide) (by decide)
    (by decide)

/- ## C9: totality and unknown association -/

/-- C9: when no live Association is cached for the callback's op_endpoint
value — including the empty string when the field is absent, or arbitrary
garbage — IDRes fails with the unknown-association failure; and on every
input whatsoever IDRes is a total function returning either Claims or an
explicit failure (the shallow embedding of: it never crashes). -/
theorem IDRes_unknown_endpoint_total (q : List (Str × Str)) (s : Store)
    (now : Int)
    (h : storeGet s (dgetD (parseHTTP q) (str "op_endpoint")) now = none) :
    IDRes q s now = VerifyResult.fail
      (VerifyErr.unknownAssociation (dgetD (parseHTTP q) (str "op_endpoint"))) ∧
    ∀ (q' : List (Str × Str)) (s' : Store) (now' : Int),
      (∃ u, IDRes q' s' now' = VerifyResult.claims u) ∨
      (∃ e, IDRes q' s' now' = VerifyResult.fail e) := by
  refine ⟨by simp only [IDRes, h], fun q' s' now' => ?_⟩
  cases hr : IDRes q' s' now' with
  | claims u => exact Or.inl ⟨u, rfl⟩
  | fail e => exact Or.inr ⟨e, rfl⟩

theorem IDRes_unknown_endpoint_total_witness :
    IDRes [(str "openid.op_endpoint", str "garbage")] [] 0 =
      VerifyResult.fail (VerifyErr.unknownAssociation (str "garbage")) :=
  (IDRes_unknown_endpoint_total [(str "openid.op_endpoint", str "garbage")]
    [] 0 (by decide)).1

/- ## C10: GetUser and the unchecked type assertion -/

/-- C10 counterexample: a session holding a string (not a user map) under
the OpenID user key makes GetUser run the unchecked type assertion
`user.(map[string]string)` on it, a Go runtime panic — not a (nil, false)
or (value, true) return. -/
theorem getuser_panics_on_string_value :
    GetUser [(sesKeyOpenID, SessVal.strVal (str "x"))] =
      UserResult.panicked ∧
    GetUser [(sesKeyOpenID, SessVal.strVal (str "x"))] ≠
      UserResult.notFound := by
  constructor
  · rfl
  · decide

/-- C10 amended: GetUser returns (nil, false) when the session has no
value under the OpenID user key, returns the value with true when the
stored value is dynamically a user map, and panics through the unchecked
type assertion when the stored value has any other dynamic type. -/
theorem GetUser_typed_result (s : Session) :
    (sessLoad s sesKeyOpenID = none → GetUser s = UserResult.notFound) ∧
    (∀ m, sessLoad s sesKeyOpenID = some (SessVal.userMap m) →
      GetUser s = UserResult.found m) ∧
    (∀ v, sessLoad s sesKeyOpenID = some v →
      (∀ m, v ≠ SessVal.userMap m) → GetUser s = UserResult.panicked) := by
  refine ⟨fun h => by simp only [GetUser, h], fun m h => by simp only [GetUser, h],
    fun v h hv => ?_⟩
  cases v with
  | userMap m => exact absurd rfl (hv m)
  | strVal t => simp only [GetUser, h]
  | otherVal => simp only [GetUser, h]

theorem GetUser_typed_result_witness :
    GetUser [(sesKeyOpenID, SessVal.userMap [(str "email", str "a@b")])] =
      UserResult.found [(str "email", str "a@b")] :=
  (GetUser_typed_result
    [(sesKeyOpenID, SessVal.userMap [(str "email", str "a@b")])]).2.1
    [(str "email", str "a@b")] (by decide)

end OpenIDRP
